import Mathlib

/-!
# Verification of the code-scanner agent orchestration system

Shallow embedding of the in-memory job store (`src/lib/job-store.ts`), the
three LLM agents (Sentinel endpoint discovery, Guardian checklist generation,
Inspector code inspection) and the analysis runner's progress heuristics
(`src/lib/analysis-runner.ts`, latest revision), together with theorems
settling the frozen claims about them.

Time (`Date.now()`) is passed explicitly as a `now : Nat` argument.  Model
completions are supplied by an explicit oracle list: each `generateText` call
consumes one oracle entry, which records the parse outcome of the returned
text.  Event fan-out to subscribers is modelled by returning the list of
events each store operation emits.
-/

/-! ## Job store data model (src/lib/job-store.ts) -/

inductive JobStatus where
  | pending
  | running
  | completed
  | failed
  | cancelled
  deriving Repr, DecidableEq

structure LogEntry where
  timestamp : Nat
  level : String
  message : String
  deriving Repr, DecidableEq

structure JobProgress where
  current : Nat
  total : Nat
  stage : String
  deriving Repr, DecidableEq

/-- The aggregate result of one analysis job (`AnalysisResult`).  The job
store never inspects this payload; the embedding carries the summary string
and one metric count and omits the nested arrays, which no store operation
reads. -/
structure AnalysisResult where
  summary : String
  endpointsFound : Nat
  deriving Repr, DecidableEq

inductive JobEventData where
  | log (entry : LogEntry)
  | progress (p : JobProgress)
  | status (s : JobStatus)
  | result (r : AnalysisResult)
  | error (message : String)
  deriving Repr, DecidableEq

/-- An event object `{type, timestamp, data}`; the `type` tag is determined
by the `data` constructor. -/
structure JobEvent where
  timestamp : Nat
  data : JobEventData
  deriving Repr, DecidableEq

/-- One job record.  The `AbortController` is modelled by two booleans:
whether a controller has been attached (`hasAbortController`) and whether its
signal has been aborted (`aborted`).  The subscriber set is modelled by its
size only; `emitEvent` is modelled by returning the emitted event. -/
structure Job where
  id : String
  status : JobStatus
  createdAt : Nat
  startedAt : Option Nat
  completedAt : Option Nat
  logs : List LogEntry
  progress : JobProgress
  result : Option AnalysisResult
  error : Option String
  subscribers : Nat
  hasAbortController : Bool
  aborted : Bool
  deriving Repr, DecidableEq

/-- The in-memory job registry (`const jobs = new Map<string, Job>()`),
as an association list keyed by job id. -/
abbrev JobStore := List (String × Job)

/-- `jobs.get(id)` -/
def getJob (st : JobStore) (id : String) : Option Job :=
  (st.find? (fun p => p.1 == id)).map (fun p => p.2)

/-- `jobs.set(id, job)` for an id already present (mutation in place). -/
def setJob (st : JobStore) (id : String) (job : Job) : JobStore :=
  st.map (fun p => if p.1 == id then (p.1, job) else p)

/-- `createJob`: fresh id supplied by the caller (the source generates it
from the clock and a random suffix). -/
def createJob (id : String) (now : Nat) (st : JobStore) : JobStore × Job :=
  let job : Job :=
    { id := id, status := .pending, createdAt := now, startedAt := none,
      completedAt := none, logs := [], progress := ⟨0, 100, "Initializing"⟩,
      result := none, error := none, subscribers := 0,
      hasAbortController := false, aborted := false }
  (st ++ [(id, job)], job)

/-- `subscribeToJob`: throws `Job <id> not found` for an unknown id,
otherwise registers the callback (modelled by the subscriber count). -/
def subscribeToJob (id : String) (st : JobStore) : Except String JobStore :=
  match getJob st id with
  | none => .error ("Job " ++ id ++ " not found")
  | some job => .ok (setJob st id { job with subscribers := job.subscribers + 1 })

/-- `addLog`: silently returns for an unknown id; otherwise appends the log
entry and emits a `log` event. -/
def addLog (id : String) (level message : String) (now : Nat) (st : JobStore) :
    JobStore × List JobEvent :=
  match getJob st id with
  | none => (st, [])
  | some job =>
      let entry : LogEntry := ⟨now, level, message⟩
      (setJob st id { job with logs := job.logs ++ [entry] },
       [⟨now, .log entry⟩])

/-- `updateProgress`: silently returns for an unknown id; otherwise stores
the given values unconditionally (no monotonicity clamp) and emits a
`progress` event. -/
def updateProgress (id : String) (current total : Nat) (stage : String)
    (now : Nat) (st : JobStore) : JobStore × List JobEvent :=
  match getJob st id with
  | none => (st, [])
  | some job =>
      let p : JobProgress := ⟨current, total, stage⟩
      (setJob st id { job with progress := p }, [⟨now, .progress p⟩])

/-- `updateStatus`: silently returns for an unknown id; otherwise writes the
status, stamps `startedAt` on first entry to `running`, stamps `completedAt`
on a terminal status, and emits a `status` event. -/
def updateStatus (id : String) (status : JobStatus) (now : Nat)
    (st : JobStore) : JobStore × List JobEvent :=
  match getJob st id with
  | none => (st, [])
  | some job =>
      let job := { job with status := status }
      let job :=
        if status = .running ∧ job.startedAt = none then
          { job with startedAt := some now }
        else job
      let job :=
        if status = .completed ∨ status = .failed ∨ status = .cancelled then
          { job with completedAt := some now }
        else job
      (setJob st id job, [⟨now, .status status⟩])

/-- `setAbortController` -/
def setAbortController (id : String) (st : JobStore) : JobStore :=
  match getJob st id with
  | none => st
  | some job => setJob st id { job with hasAbortController := true }

/-- `cancelJob`: returns `false` for an unknown id or a job that is neither
`running` nor `pending`, mutating nothing and emitting nothing.  Otherwise
aborts the attached controller, marks the job `cancelled`, stamps
`completedAt`, appends the cancellation log (through `addLog`, which emits a
`log` event) and emits a `status` event. -/
def cancelJob (id : String) (now : Nat) (st : JobStore) :
    JobStore × List JobEvent × Bool :=
  match getJob st id with
  | none => (st, [], false)
  | some job =>
      if job.status ≠ .running ∧ job.status ≠ .pending then (st, [], false)
      else
        let job := if job.hasAbortController then { job with aborted := true } else job
        let job := { job with status := .cancelled, completedAt := some now }
        let st := setJob st id job
        let (st, logEvents) := addLog id "warn" "🛑 Analysis cancelled by user" now st
        (st, logEvents ++ [⟨now, .status .cancelled⟩], true)

/-- `isJobCancelled` -/
def isJobCancelled (id : String) (st : JobStore) : Bool :=
  match getJob st id with
  | none => false
  | some job => job.status = .cancelled ∨ (job.hasAbortController ∧ job.aborted)

/-- `setResult`: silently returns for an unknown id; otherwise writes the
result unconditionally (there is no once-guard) and emits a `result`
event. -/
def setResult (id : String) (result : AnalysisResult) (now : Nat)
    (st : JobStore) : JobStore × List JobEvent :=
  match getJob st id with
  | none => (st, [])
  | some job =>
      (setJob st id { job with result := some result },
       [⟨now, .result result⟩])

/-- `setError`: silently returns for an unknown id; otherwise writes the
error unconditionally (no once-guard), forces the status to `failed`,
stamps `completedAt` and emits an `error` event. -/
def setError (id : String) (error : String) (now : Nat) (st : JobStore) :
    JobStore × List JobEvent :=
  match getJob st id with
  | none => (st, [])
  | some job =>
      (setJob st id
        { job with error := some error, status := .failed, completedAt := some now },
       [⟨now, .error error⟩])

/-- `cleanupOldJobs`: reaps jobs older than `maxAgeMs` with no
subscribers. -/
def cleanupOldJobs (maxAgeMs now : Nat) (st : JobStore) : JobStore :=
  st.filter (fun p => !(now - p.2.createdAt > maxAgeMs ∧ p.2.subscribers = 0))

/-! ## Example jobs and stores -/

def exResultA : AnalysisResult := ⟨"analysis finished", 2⟩

def exResultB : AnalysisResult := ⟨"analysis finished again", 2⟩

def exJobRunning : Job :=
  { id := "j1", status := .running, createdAt := 0, startedAt := some 1,
    completedAt := none, logs := [], progress := ⟨0, 100, "Initializing"⟩,
    result := none, error := none, subscribers := 1,
    hasAbortController := true, aborted := false }

def exJobDone : Job :=
  { exJobRunning with status := .completed, completedAt := some 9 }

def exStoreRun : JobStore := [("j1", exJobRunning)]

/-! ## Shared agent data model (src/lib/agents) -/

/-- `FileEntry` (src/lib/code-cleaner/types.ts). -/
structure FileEntry where
  path : String
  content : String
  size : Nat
  deriving Repr, DecidableEq

/-- `EndpointProfile` (sentinel-agent).  `sensitivity_level` is kept as a
string: the response parser checks only field presence and performs no enum
validation, so the runtime value is whatever the model returned. -/
structure EndpointProfile where
  flow_name : String
  purpose : String
  entry_point : String
  input_types : List String
  output_types : List String
  sensitivity_level : String
  mark_down : String
  deriving Repr, DecidableEq

/-- Left-to-right scan for `sub` occurring as a contiguous run of `l`. -/
def containsSub (sub : List Char) : List Char → Bool
  | [] => sub.isEmpty
  | c :: rest => sub.isPrefixOf (c :: rest) || containsSub sub rest

/-- JavaScript `String.prototype.includes` (substring test). -/
def strIncludes (s sub : String) : Bool :=
  containsSub sub.toList s.toList

/-! ## Sentinel Agent (endpoint discovery) -/

def SENTINEL_DEFAULT_MAX_DEPTH : Nat := 10

def SENTINEL_MAX_SIMILAR_FILES : Nat := 5

/-- `filePath.replace(/^\.?\//, "")`: strip a single leading `./` or `/`. -/
def normalizePath (p : String) : String :=
  match p.toList with
  | '.' :: '/' :: rest => String.mk rest
  | '/' :: rest => String.mk rest
  | _ => p

/-- `"a/b".split("/")` on character lists. -/
def splitSlash : List Char → List (List Char)
  | [] => [[]]
  | '/' :: rest => [] :: splitSlash rest
  | c :: rest =>
      match splitSlash rest with
      | [] => [[c]]
      | g :: gs => (c :: g) :: gs

/-- JavaScript `String.prototype.toLowerCase`, character-wise (faithful on
the ASCII paths at issue). -/
def lowerChars (s : String) : List Char :=
  s.toList.map Char.toLower

/-- `findFileContent`: exact lookup after normalizing both sides (or the raw
path). -/
def findFileContent (files : List FileEntry) (filePath : String) : Option String :=
  let normalizedPath := normalizePath filePath
  (files.find? (fun f =>
      normalizePath f.path == normalizedPath || f.path == filePath)).map
    (fun f => f.content)

/-- The filter predicate of `findSimilarFiles`: the file's lowercased path
contains the last `/`-separated token of the lowercased search path, or any
of its tokens. -/
def similarMatch (searchPath : String) (f : FileEntry) : Bool :=
  let searchParts := splitSlash (lowerChars searchPath)
  let searchName := searchParts.getLastD []
  let lowerPath := lowerChars f.path
  containsSub searchName lowerPath ||
    searchParts.any (fun part => containsSub part lowerPath)

/-- `findSimilarFiles`: up to `SENTINEL_MAX_SIMILAR_FILES` matching files,
rendered as `- <path>` lines. -/
def findSimilarFiles (files : List FileEntry) (searchPath : String) : List String :=
  ((files.filter (similarMatch searchPath)).take SENTINEL_MAX_SIMILAR_FILES).map
    (fun f => "- " ++ f.path)

/-- The tagged union produced by `parseAgentResponse`. -/
inductive SentinelResponse where
  | pickEndpoint (file_to_read_next : String)
  | tracingEndpoint (endpoint_being_traced : String) (file_to_read_next : String)
      (files_to_read_later : List String)
  | completed (result : EndpointProfile)
  | notFound
  deriving Repr, DecidableEq

/-- The outcome of one `generateText` call followed by `parseAgentResponse`:
either a parsed tagged response or a parse failure carrying the thrown error
message.  One oracle entry is consumed per model call. -/
inductive SentinelOracle where
  | parseFail (errMsg : String)
  | ok (r : SentinelResponse)
  deriving Repr, DecidableEq

/-- A user turn of the discovery conversation.  Each constructor carries
exactly the data the source interpolates into the corresponding prompt
template; `fileNotFound` is the follow-up turn listing the similar files and
asking the model to request a valid path or answer `not_found`. -/
inductive SentinelUserTurn where
  | initial (tree : String) (processed : List String)
  | fileContent (path content : String)
  | alreadyRead (path content : String)
  | fileNotFound (path : String) (suggestions : List String)
  | depthWarning (maxDepth : Nat)
  deriving Repr, DecidableEq

inductive SentinelMsg where
  | user (turn : SentinelUserTurn)
  | assistant (reply : SentinelOracle)
  deriving Repr, DecidableEq

/-- The log lines the Sentinel Agent emits, keyed by call site. -/
inductive SentinelLog where
  | startLog
  | parseFailLog (errMsg : String)
  | notFoundLog
  | pickingLog (file : String)
  | tracingLog (endpoint file : String)
  | completedLog (entryPoint : String)
  | maxDepthLog (maxDepth : Nat)
  | endpointRecordedLog (entryPoint sensitivity : String)
  | allAnalyzedLog
  deriving Repr, DecidableEq

/-- `filesRead.get(path)` on the per-trace read cache. -/
def lookupRead (filesRead : List (String × String)) (path : String) : Option String :=
  (filesRead.find? (fun p => p.1 == path)).map (fun p => p.2)

structure ReadRespondOut where
  found : Bool
  filesRead : List (String × String)
  hist : List SentinelMsg
  deriving Repr, DecidableEq

/-- `readFileAndRespond`: serve the cached content with a reminder if the
file was already read in this trace; otherwise look it up, and on a miss
append the `fileNotFound` follow-up turn (built from `findSimilarFiles`) and
report `false`. -/
def readFileAndRespond (files : List FileEntry) (filePath : String)
    (filesRead : List (String × String)) (hist : List SentinelMsg) :
    ReadRespondOut :=
  match lookupRead filesRead filePath with
  | some content =>
      ⟨true, filesRead, hist ++ [.user (.alreadyRead filePath content)]⟩
  | none =>
      match findFileContent files filePath with
      | none =>
          ⟨false, filesRead,
           hist ++ [.user (.fileNotFound filePath (findSimilarFiles files filePath))]⟩
      | some content =>
          ⟨true, filesRead ++ [(filePath, content)],
           hist ++ [.user (.fileContent filePath content)]⟩

inductive TraceOutcome where
  | foundEndpoint (p : EndpointProfile)
  | notFoundEnd
  | pickFileMissing
  | depthExhausted
  | oracleEnded
  deriving Repr, DecidableEq

structure TraceSt where
  depth : Nat
  hist : List SentinelMsg
  filesRead : List (String × String)
  filesToRead : List String
  currentName : String
  logs : List SentinelLog
  deriving Repr, DecidableEq

structure TraceOut where
  outcome : TraceOutcome
  hist : List SentinelMsg
  filesRead : List (String × String)
  rest : List SentinelOracle
  logs : List SentinelLog
  deriving Repr, DecidableEq

/-- The `while (depth < this.maxDepth)` loop of `findAndTraceEndpoint`.  One
oracle entry is consumed per iteration (one `generateText` call); a parse
failure pops the assistant turn and decrements the depth counter, so it
consumes only the oracle entry.  `oracleEnded` marks a model call with no
scripted reply; the theorems below never exercise that case.  The abort
signal is modelled as never aborted here (discovery-stage cancellation is
not at issue in the claims about this agent). -/
def traceLoop (files : List FileEntry) (maxDepth : Nat) :
    List SentinelOracle → TraceSt → TraceOut
  | [], st =>
      if st.depth < maxDepth then
        ⟨.oracleEnded, st.hist, st.filesRead, [], st.logs⟩
      else
        ⟨.depthExhausted, st.hist, st.filesRead, [],
         st.logs ++ [.maxDepthLog maxDepth]⟩
  | resp :: rest, st =>
      if st.depth < maxDepth then
        let depth := st.depth + 1
        let hist := st.hist ++ [.assistant resp]
        match resp with
        | .parseFail msg =>
            -- retry the last step: pop the unparseable exchange,
            -- compensate the depth counter, and re-prompt
            traceLoop files maxDepth rest
              { st with depth := depth - 1, hist := hist.dropLast,
                        logs := st.logs ++ [.parseFailLog msg] }
        | .ok .notFound =>
            ⟨.notFoundEnd, hist, st.filesRead, rest, st.logs ++ [.notFoundLog]⟩
        | .ok (.pickEndpoint file) =>
            let logs := st.logs ++ [.pickingLog file]
            let rr := readFileAndRespond files file st.filesRead hist
            if rr.found then
              traceLoop files maxDepth rest
                { depth := depth, hist := rr.hist, filesRead := rr.filesRead,
                  filesToRead := st.filesToRead, currentName := file, logs := logs }
            else
              ⟨.pickFileMissing, rr.hist, rr.filesRead, rest, logs⟩
        | .ok (.tracingEndpoint ep file later) =>
            let logs := st.logs ++ [.tracingLog ep file]
            let filesToRead :=
              st.filesToRead ++
                later.filter (fun f => (lookupRead st.filesRead f).isNone)
            let rr := readFileAndRespond files file st.filesRead hist
            let next :=
              if rr.found then (filesToRead, rr)
              else
                match filesToRead with
                | [] => (filesToRead, rr)
                | nextFile :: queueRest =>
                    (queueRest,
                     readFileAndRespond files nextFile rr.filesRead rr.hist)
            let hist2 :=
              if depth + 1 ≥ maxDepth then
                next.2.hist ++ [.user (.depthWarning maxDepth)]
              else next.2.hist
            traceLoop files maxDepth rest
              { depth := depth, hist := hist2, filesRead := next.2.filesRead,
                filesToRead := next.1, currentName := ep, logs := logs }
        | .ok (.completed p) =>
            ⟨.foundEndpoint p, hist, st.filesRead, rest,
             st.logs ++ [.completedLog p.entry_point]⟩
      else
        ⟨.depthExhausted, st.hist, st.filesRead, resp :: rest,
         st.logs ++ [.maxDepthLog maxDepth]⟩

/-- `findAndTraceEndpoint`: one endpoint-trace attempt starting from the
initial prompt (rendered project tree plus processed-endpoint list). -/
def findAndTraceEndpoint (files : List FileEntry) (maxDepth : Nat)
    (projectTree : String) (processedEndpoints : List String)
    (oracle : List SentinelOracle) : TraceOut :=
  traceLoop files maxDepth oracle
    { depth := 0, hist := [.user (.initial projectTree processedEndpoints)],
      filesRead := [], filesToRead := [], currentName := "unknown", logs := [] }

structure AnalyzeOut where
  endpoints : List EndpointProfile
  processed : List String
  rest : List SentinelOracle
  logs : List SentinelLog
  deriving Repr, DecidableEq

/-- The `while (true)` loop of `SentinelAgent.analyze`: repeat single-trace
attempts; a trace that yields an endpoint appends it verbatim and records its
`entry_point` in the processed list; ANY trace that returns `null`
(`not_found`, a missing pick-file, or depth exhaustion) logs completion and
ends the loop.  `fuel` bounds the recursion; each trace attempt that yields
an endpoint consumes at least one oracle entry, so
`fuel = oracle.length + 1` never runs out. -/
def analyzeLoop (files : List FileEntry) (maxDepth : Nat) (projectTree : String) :
    Nat → List SentinelOracle → List EndpointProfile → List String →
      List SentinelLog → AnalyzeOut
  | 0, oracle, acc, processed, logs => ⟨acc, processed, oracle, logs⟩
  | fuel + 1, oracle, acc, processed, logs =>
      let t := findAndTraceEndpoint files maxDepth projectTree processed oracle
      match t.outcome with
      | .foundEndpoint p =>
          analyzeLoop files maxDepth projectTree fuel t.rest (acc ++ [p])
            (processed ++ [p.entry_point])
            (logs ++ t.logs ++
              [.endpointRecordedLog p.entry_point p.sensitivity_level])
      | _ => ⟨acc, processed, t.rest, logs ++ t.logs ++ [.allAnalyzedLog]⟩

/-- `SentinelAgent.analyze` (debug-output archiving omitted; the projected
tree is received as an opaque rendered string). -/
def sentinelAnalyze (files : List FileEntry) (maxDepth : Nat)
    (projectTree : String) (oracle : List SentinelOracle) : AnalyzeOut :=
  analyzeLoop files maxDepth projectTree (oracle.length + 1) oracle [] [] [.startLog]

/-! ## Example discovery inputs -/

def exTree : String := "src\n  app\n    api\n  lib\n"

def exFiles : List FileEntry :=
  [⟨"src/app/api/analyze/route.ts", "export async function POST() {}", 31⟩,
   ⟨"src/lib/job-store.ts", "export function createJob() {}", 30⟩]

def exProfile : EndpointProfile :=
  ⟨"Analyze Job", "Starts an analysis job", "POST /api/analyze",
   ["files: FileEntry[]"], ["job: Job"], "high", "## Endpoint trace"⟩

/-- An oracle on which a single trace exhausts a depth budget of 2: two
`tracing_endpoint` turns, with a `completed` reply left unconsumed. -/
def exOracleC4 : List SentinelOracle :=
  [.ok (.tracingEndpoint "POST /api/analyze" "src/app/api/analyze/route.ts" []),
   .ok (.tracingEndpoint "POST /api/analyze" "src/lib/job-store.ts" []),
   .ok (.completed exProfile)]

def exProfileDup1 : EndpointProfile :=
  ⟨"User Flow", "login", "POST /api/login", [], [], "high", "md1"⟩

def exProfileDup2 : EndpointProfile :=
  ⟨"User Flow", "register", "POST /api/register", [], [], "high", "md2"⟩

/-! ## Guardian Agent (checklist generation, guardian-agent source) -/

def GUARDIAN_MAX_RETRIES : Nat := 3

/-- `FlowProfile`: EndpointProfile minus `mark_down`. -/
structure FlowProfile where
  flow_name : String
  purpose : String
  entry_point : String
  input_types : List String
  output_types : List String
  sensitivity_level : String
  deriving Repr, DecidableEq

/-- `SecurityControl`; category and importance are kept as strings since the
parser validates only presence of the checklist arrays, not field values. -/
structure SecurityControl where
  control_id : String
  name : String
  description : String
  category : String
  importance : String
  owasp_mapping : List String
  deriving Repr, DecidableEq

structure SecurityReference where
  title : String
  url : String
  deriving Repr, DecidableEq

structure SecurityChecklist where
  flow_name : String
  required_controls : List SecurityControl
  recommended_controls : List SecurityControl
  references : List SecurityReference
  deriving Repr, DecidableEq

inductive GuardianResponse where
  | completed (result : SecurityChecklist)
  | errorStatus (message : String)
  deriving Repr, DecidableEq

/-- One `generateText`-and-parse outcome for the Guardian Agent. -/
inductive GuardianOracle where
  | parseFail (errMsg : String)
  | ok (r : GuardianResponse)
  deriving Repr, DecidableEq

/-- User turns of the checklist conversation (prompt templates abstracted to
the data interpolated into them; the framework and project tree feed only
prompt content and are omitted). -/
inductive GuardianUserTurn where
  | analysisPrompt (flow : FlowProfile)
  | retryAfterError
  | retryAfterParseFail (errMsg : String)
  deriving Repr, DecidableEq

inductive GuardianMsg where
  | user (turn : GuardianUserTurn)
  | assistant (reply : GuardianOracle)
  deriving Repr, DecidableEq

/-- One `analysisHistory` entry. -/
structure GuardianRecord where
  flow_name : String
  hist : List GuardianMsg
  retries : Nat
  success : Bool
  deriving Repr, DecidableEq

/- The Guardian log lines are modelled as the literal strings the source
emits, because the runner's progress heuristic pattern-matches on them.  The
guardian source file stores its emoji prefixes as mojibake byte sequences
(e.g. `‚úÖ` where the sibling agents have `✅`); the
builders below reproduce those bytes exactly. -/

def guardianStartLog : String :=
  "üõ°Ô∏è Guardian Agent starting security analysis..."

def guardianCountLog (n : Nat) : String :=
  "üìã Flows to analyze: " ++ toString n

def guardianAnalyzingLog (i n : Nat) (flowName : String) : String :=
  "\nüîç [" ++ toString i ++ "/" ++ toString n ++
    "] Analyzing: " ++ flowName

def guardianEntryLog (entryPoint sensitivity : String) : String :=
  "   Entry: " ++ entryPoint ++ " | Sensitivity: " ++ sensitivity

def guardianAgentErrorLog (msg : String) : String :=
  "   ‚ö†Ô∏è Agent reported error: " ++ msg

def guardianRetryLog (r maxR : Nat) (msg : String) : String :=
  "   ‚ö†Ô∏è Retry " ++ toString r ++ "/" ++
    toString maxR ++ ": " ++ msg

def guardianGeneratedLog (req rec : Nat) : String :=
  "   ‚úÖ Generated " ++ toString req ++ " required, " ++
    toString rec ++ " recommended controls"

def guardianCompleteLog (done total : Nat) : String :=
  "\n‚úÖ Guardian Agent complete. Generated " ++ toString done ++
    "/" ++ toString total ++ " checklists."

structure GuardianFlowOut where
  checklist : Option SecurityChecklist
  record : GuardianRecord
  rest : List GuardianOracle
  logs : List String
  stalled : Bool
  deriving Repr, DecidableEq

/-- The `while (retries < maxRetries)` loop of `GuardianAgent.analyzeFlow`.
`fuel = maxRetries - retries`; a `completed` reply returns the checklist
with `flow_name` force-overwritten by the input's; an `error` status or a
parse failure consumes one retry, RETAINS the unparseable assistant turn in
the history and appends a corrective user turn.  `stalled` marks an oracle
that ran out mid-loop (never exercised by the theorems). -/
def guardianGo (flow : FlowProfile) (maxR : Nat) :
    Nat → Nat → List GuardianMsg → List String → List GuardianOracle →
      GuardianFlowOut
  | 0, retries, hist, logs, o =>
      ⟨none, ⟨flow.flow_name, hist, retries, false⟩, o, logs, false⟩
  | fuel + 1, retries, hist, logs, o =>
      match o with
      | [] => ⟨none, ⟨flow.flow_name, hist, retries, false⟩, [], logs, true⟩
      | resp :: rest =>
          let hist := hist ++ [.assistant resp]
          match resp with
          | .ok (.completed c) =>
              ⟨some { c with flow_name := flow.flow_name },
               ⟨flow.flow_name, hist, retries, true⟩, rest, logs, false⟩
          | .ok (.errorStatus m) =>
              guardianGo flow maxR fuel (retries + 1)
                (hist ++ [.user .retryAfterError])
                (logs ++ [guardianAgentErrorLog m]) rest
          | .parseFail m =>
              guardianGo flow maxR fuel (retries + 1)
                (hist ++ [.user (.retryAfterParseFail m)])
                (logs ++ [guardianRetryLog (retries + 1) maxR m]) rest

/-- `GuardianAgent.analyzeFlow`. -/
def guardianAnalyzeFlow (flow : FlowProfile) (maxR : Nat)
    (oracle : List GuardianOracle) : GuardianFlowOut :=
  guardianGo flow maxR maxR 0 [.user (.analysisPrompt flow)] [] oracle

structure GuardianStageOut where
  checklists : List SecurityChecklist
  records : List GuardianRecord
  rest : List GuardianOracle
  logs : List String
  deriving Repr, DecidableEq

/-- The per-flow loop of `GuardianAgent.analyzeFlows`: a flow whose
`analyzeFlow` returned `null` contributes nothing and the loop continues
with the next flow. -/
def guardianFlowsGo (maxR total : Nat) :
    List FlowProfile → Nat → List SecurityChecklist → List GuardianRecord →
      List String → List GuardianOracle → GuardianStageOut
  | [], _, acc, recs, logs, o =>
      ⟨acc, recs, o, logs ++ [guardianCompleteLog acc.length total]⟩
  | flow :: rest, i, acc, recs, logs, o =>
      let logs := logs ++
        [guardianAnalyzingLog (i + 1) total flow.flow_name,
         guardianEntryLog flow.entry_point flow.sensitivity_level]
      let r := guardianAnalyzeFlow flow maxR o
      match r.checklist with
      | some c =>
          guardianFlowsGo maxR total rest (i + 1) (acc ++ [c])
            (recs ++ [r.record])
            (logs ++ r.logs ++
              [guardianGeneratedLog c.required_controls.length
                c.recommended_controls.length])
            r.rest
      | none =>
          guardianFlowsGo maxR total rest (i + 1) acc (recs ++ [r.record])
            (logs ++ r.logs) r.rest

/-- `GuardianAgent.analyzeFlows` (debug-output archiving omitted). -/
def guardianAnalyzeFlows (flows : List FlowProfile) (maxR : Nat)
    (oracle : List GuardianOracle) : GuardianStageOut :=
  guardianFlowsGo maxR flows.length flows 0 [] []
    [guardianStartLog, guardianCountLog flows.length] oracle

/-! ## Inspector Agent (code inspection, unnamed/part_006) -/

def INSPECTOR_MAX_RETRIES : Nat := 3

structure CodeLocation where
  file : String
  code_snippet : String
  deriving Repr, DecidableEq

structure ImplementedControl where
  control_id : String
  control_name : String
  evidence : String
  location : CodeLocation
  deriving Repr, DecidableEq

structure MissingControl where
  control_id : String
  control_name : String
  reason : String
  severity : String
  recommendation : String
  deriving Repr, DecidableEq

structure AutoHandledControl where
  control_id : String
  control_name : String
  handled_by : String
  explanation : String
  deriving Repr, DecidableEq

structure SecurityReportSummary where
  total_controls : Nat
  implemented_count : Nat
  missing_count : Nat
  auto_handled_count : Nat
  overall_severity : String
  deriving Repr, DecidableEq

structure SecurityReport where
  flow_name : String
  implemented : List ImplementedControl
  missing : List MissingControl
  auto_handled : List AutoHandledControl
  summary : SecurityReportSummary
  deriving Repr, DecidableEq

/-- One unit of inspection work: an endpoint paired with its checklist. -/
structure InspectionInput where
  endpoint : EndpointProfile
  checklist : SecurityChecklist
  deriving Repr, DecidableEq

inductive InspectorResponse where
  | completed (result : SecurityReport)
  | errorStatus (message : String)
  deriving Repr, DecidableEq

inductive InspectorOracle where
  | parseFail (errMsg : String)
  | ok (r : InspectorResponse)
  deriving Repr, DecidableEq

inductive InspectorUserTurn where
  | inspectionPrompt (input : InspectionInput)
  | tryAgain
  deriving Repr, DecidableEq

inductive InspectorMsg where
  | user (turn : InspectorUserTurn)
  | assistant (reply : InspectorOracle)
  deriving Repr, DecidableEq

/-- The error that reached a catch block or escaped a call. -/
inductive InspectorErrKind where
  | abortErr
  | parseErr (msg : String)
  | cancelledErr
  deriving Repr, DecidableEq

/-- Inspector log lines, keyed by call site (this agent's logs are not
consumed by any string-matching heuristic in the claims, so they are kept
structural; `unitFailedLog` is the per-unit
`Failed to inspect flow: <errorMsg>` catch-block line). -/
inductive InspectorLog where
  | startLog
  | countLog (n : Nat)
  | inspectingLog (i n : Nat) (flowName : String)
  | controlsLog (n : Nat)
  | agentErrorLog (msg : String)
  | parseErrorLog (attempt maxRetries : Nat) (err : InspectorErrKind)
  | unitDoneLog (implemented missing autoHandled : Nat)
  | severityLog (severity : String)
  | unitFailedLog (err : InspectorErrKind)
  | completeLog (done total : Nat)
  deriving Repr, DecidableEq

structure InspectorRecord where
  flow_name : String
  hist : List InspectorMsg
  retries : Nat
  success : Bool
  deriving Repr, DecidableEq

/-- The cooperative abort signal, as a function of the number of model calls
issued so far: the signal fires while call number `abortAt` (1-indexed) is
in flight, so `signal.aborted` is exactly `abortAt ≤ calls`; `abortAt = 0`
means the signal was already aborted before the stage began, and an
`abortAt` beyond every call count means no cancellation ever occurs. -/
def signalAborted (abortAt calls : Nat) : Bool :=
  abortAt ≤ calls

/-- The catch-block guard
`if (history.length > 1 && last.role === "assistant") history.pop()`. -/
def popIfAssistant (hist : List InspectorMsg) : List InspectorMsg :=
  if hist.length > 1 then
    match hist.getLast? with
    | some (.assistant _) => hist.dropLast
    | _ => hist
  else hist

inductive InspectorFlowRes where
  | done (r : Option SecurityReport)
  | cancelledThrow
  deriving Repr, DecidableEq

structure InspectorFlowOut where
  res : InspectorFlowRes
  record : Option InspectorRecord
  calls : Nat
  logs : List InspectorLog
  rest : List InspectorOracle
  deriving Repr, DecidableEq

/-- The `while (retries < maxRetries)` loop of `InspectorAgent.inspectFlow`.
The loop-head `checkCancellation` sits OUTSIDE the try block: once the
signal is aborted it throws the plain `Analysis cancelled` error out of the
whole unit (`cancelledThrow`, with no history record).  A model call whose
request was in flight when the signal fired rejects INSIDE the try block:
the generic catch consumes a retry and logs it as a parse error.  A
`completed` reply returns the report with `flow_name` force-overwritten.
`fuel = maxRetries - retries`. -/
def inspectorGo (flowName : String) (abortAt maxR : Nat) :
    Nat → Nat → List InspectorMsg → Nat → List InspectorLog →
      List InspectorOracle → InspectorFlowOut
  | 0, retries, hist, calls, logs, o =>
      ⟨.done none, some ⟨flowName, hist, retries, false⟩, calls, logs, o⟩
  | fuel + 1, retries, hist, calls, logs, o =>
      if signalAborted abortAt calls then
        ⟨.cancelledThrow, none, calls, logs, o⟩
      else
        let calls := calls + 1
        if signalAborted abortAt calls then
          inspectorGo flowName abortAt maxR fuel (retries + 1)
            (popIfAssistant hist) calls
            (logs ++ [.parseErrorLog (retries + 1) maxR .abortErr]) o
        else
          match o with
          | [] =>
              ⟨.done none, some ⟨flowName, hist, retries, false⟩, calls, logs, []⟩
          | resp :: rest =>
              let hist := hist ++ [.assistant resp]
              match resp with
              | .ok (.completed r) =>
                  ⟨.done (some { r with flow_name := flowName }),
                   some ⟨flowName, hist, retries, true⟩, calls, logs, rest⟩
              | .ok (.errorStatus m) =>
                  inspectorGo flowName abortAt maxR fuel (retries + 1)
                    (hist ++ [.user .tryAgain]) calls
                    (logs ++ [.agentErrorLog m]) rest
              | .parseFail m =>
                  inspectorGo flowName abortAt maxR fuel (retries + 1)
                    (popIfAssistant hist) calls
                    (logs ++ [.parseErrorLog (retries + 1) maxR (.parseErr m)])
                    rest

/-- `InspectorAgent.inspectFlow`, threading the stage-wide call counter and
log list. -/
def inspectFlow (input : InspectionInput) (abortAt maxR calls : Nat)
    (logs : List InspectorLog) (oracle : List InspectorOracle) :
    InspectorFlowOut :=
  inspectorGo input.endpoint.flow_name abortAt maxR maxR 0
    [.user (.inspectionPrompt input)] calls logs oracle

structure InspectorStageOut where
  reports : List SecurityReport
  records : List InspectorRecord
  escaped : Bool
  calls : Nat
  logs : List InspectorLog
  rest : List InspectorOracle
  deriving Repr, DecidableEq

/-- The per-input loop of `InspectorAgent.inspectFlows`.  The loop-head
`checkCancellation` is outside the per-unit try: once aborted it throws the
plain error out of `inspectFlows` (`escaped`, losing the local report list
for the caller).  A `cancelledThrow` escaping `inspectFlow` is caught by the
per-unit catch, logged as that unit's generic failure, and the loop
CONTINUES with the next input. -/
def inspectorFlowsGo (abortAt maxR total : Nat) :
    List InspectionInput → Nat → List SecurityReport →
      List InspectorRecord → Nat → List InspectorLog →
      List InspectorOracle → InspectorStageOut
  | [], _, acc, recs, calls, logs, o =>
      ⟨acc, recs, false, calls, logs ++ [.completeLog acc.length total], o⟩
  | inp :: rest, i, acc, recs, calls, logs, o =>
      if signalAborted abortAt calls then
        ⟨acc, recs, true, calls, logs, o⟩
      else
        let logs := logs ++
          [.inspectingLog (i + 1) total inp.endpoint.flow_name,
           .controlsLog (inp.checklist.required_controls.length +
             inp.checklist.recommended_controls.length)]
        let fo := inspectFlow inp abortAt maxR calls logs o
        match fo.res with
        | .cancelledThrow =>
            inspectorFlowsGo abortAt maxR total rest (i + 1) acc recs
              fo.calls (fo.logs ++ [.unitFailedLog .cancelledErr]) fo.rest
        | .done none =>
            inspectorFlowsGo abortAt maxR total rest (i + 1) acc
              (recs ++ fo.record.toList) fo.calls fo.logs fo.rest
        | .done (some r) =>
            inspectorFlowsGo abortAt maxR total rest (i + 1) (acc ++ [r])
              (recs ++ fo.record.toList) fo.calls
              (fo.logs ++
                [.unitDoneLog r.summary.implemented_count
                   r.summary.missing_count r.summary.auto_handled_count,
                 .severityLog r.summary.overall_severity])
              fo.rest

/-- `InspectorAgent.inspectFlows` (start logs, then the entry
`checkCancellation`, then the loop; debug-output archiving omitted). -/
def inspectFlows (inputs : List InspectionInput) (abortAt maxR : Nat)
    (oracle : List InspectorOracle) : InspectorStageOut :=
  if signalAborted abortAt 0 then
    ⟨[], [], true, 0, [.startLog, .countLog inputs.length], oracle⟩
  else
    inspectorFlowsGo abortAt maxR inputs.length inputs 0 [] [] 0
      [.startLog, .countLog inputs.length] oracle

/-! ## Runner: inspector stage and finalization (analysis-runner.ts) -/

inductive RunnerExit where
  | completedExit
  | cancelledExit
  deriving Repr, DecidableEq

structure RunnerOut where
  resultSet : Bool
  finalStatus : Option JobStatus
  exit : RunnerExit
  calls : Nat
  logs : List InspectorLog
  agentErrorLogged : Bool
  deriving Repr, DecidableEq

/-- The Inspector stage plus finalization of `runAnalysis`, for a job whose
endpoint and checklist sets are nonempty.  `checkCancellation` precedes the
stage and throws `CancellationError` when the signal is aborted; an error
thrown by the agent that is NOT a `CancellationError` — in particular the
agent's own plain `Error("Analysis cancelled")` (`escaped`) — is caught,
logged as a warning (`agentErrorLogged`) and execution continues; the
runner's final `checkCancellation` then throws `CancellationError`, which
the top-level handler swallows, so on the cancellation path neither
`setResult` nor `updateStatus` is called (`resultSet = false`,
`finalStatus = none`) and the job keeps the `cancelled` status that
`cancelJob` stamped. -/
def runInspectorStage (inputs : List InspectionInput) (abortAt maxR : Nat)
    (oracle : List InspectorOracle) : RunnerOut :=
  if signalAborted abortAt 0 then
    ⟨false, none, .cancelledExit, 0, [], false⟩
  else
    let out := inspectFlows inputs abortAt maxR oracle
    if out.escaped then
      if signalAborted abortAt out.calls then
        ⟨false, none, .cancelledExit, out.calls, out.logs, true⟩
      else
        ⟨true, some .completed, .completedExit, out.calls, out.logs, true⟩
    else
      if signalAborted abortAt out.calls then
        ⟨false, none, .cancelledExit, out.calls, out.logs, false⟩
      else
        ⟨true, some .completed, .completedExit, out.calls, out.logs, false⟩

/-! ## Runner: progress accounting (analysis-runner.ts) -/

/-- One stage's share of the 0-100 progress bar (`stop` is `end` in the
source). -/
structure StageRange where
  start : Nat
  stop : Nat
  deriving Repr, DecidableEq

def PROGRESS_INIT : StageRange := ⟨0, 5⟩

def PROGRESS_SENTINEL : StageRange := ⟨5, 35⟩

def PROGRESS_GUARDIAN : StageRange := ⟨35, 65⟩

def PROGRESS_INSPECTOR : StageRange := ⟨65, 95⟩

def PROGRESS_FINALIZE : StageRange := ⟨95, 100⟩

/-- `calcProgress`: `Math.round(stage.start + (current / total) * range)`,
with `Math.round x = ⌊x + 1/2⌋` computed exactly on rationals; the double
arithmetic of the source is exact at every input exercised below. -/
def calcProgress (stage : StageRange) (current total : Nat) : Nat :=
  if total = 0 then stage.stop
  else
    (2 * (stage.start * total + current * (stage.stop - stage.start)) + total) /
      (2 * total)

def digitsToNat (ds : List Char) : Nat :=
  ds.foldl (fun acc c => acc * 10 + (c.toNat - 48)) 0

/-- Match `[<digits>/<digits>]` anchored at the head of the character list
(one candidate position of the regex `\[(\d+)\/(\d+)\]`). -/
def matchMarkerAt : List Char → Option (Nat × Nat)
  | '[' :: rest =>
      let ds1 := rest.takeWhile Char.isDigit
      let r1 := rest.dropWhile Char.isDigit
      if ds1.isEmpty then none
      else
        match r1 with
        | '/' :: r2 =>
            let ds2 := r2.takeWhile Char.isDigit
            let r3 := r2.dropWhile Char.isDigit
            if ds2.isEmpty then none
            else
              match r3 with
              | ']' :: _ => some (digitsToNat ds1, digitsToNat ds2)
              | _ => none
        | _ => none
  | _ => none

/-- Leftmost match of `\[(\d+)\/(\d+)\]`, as `message.match(...)` finds
it. -/
def findMarker : List Char → Option (Nat × Nat)
  | [] => none
  | c :: rest =>
      match matchMarkerAt (c :: rest) with
      | some p => some p
      | none => findMarker rest

/-- The Guardian-stage `onLog` callback installed by `runAnalysis` (its
progress part; the unconditional `addLog` pass-through is not at issue).
State is `completedFlows`; the returned list holds the `current` values of
the `updateProgress` calls the handler makes.  A message containing
`Analyzing:` sets `completedFlows` to the first bracket marker's first
number minus one; a message containing `✅ Generated` increments it. -/
def guardianOnLog (totalFlows completedFlows : Nat) (message : String) :
    Nat × List Nat :=
  let s1 :=
    if strIncludes message "Analyzing:" then
      match findMarker message.toList with
      | some (x, _) =>
          let cf := x - 1
          (cf, [calcProgress PROGRESS_GUARDIAN cf totalFlows])
      | none => (completedFlows, [])
    else (completedFlows, [])
  if strIncludes message "✅ Generated" then
    let cf := s1.1 + 1
    (cf, s1.2 ++ [calcProgress PROGRESS_GUARDIAN cf totalFlows])
  else s1

/-- Fold the handler over a log-message sequence, collecting every progress
value it emits (in emission order), from the initial `completedFlows = 0`. -/
def guardianOnLogTrace (totalFlows : Nat) (messages : List String) : List Nat :=
  (messages.foldl
    (fun st m =>
      let r := guardianOnLog totalFlows st.1 m
      (r.1, st.2 ++ r.2))
    ((0, []) : Nat × List Nat)).2

/-! ## Example flows, checklists, reports and inspections -/

def exFlowA : FlowProfile :=
  ⟨"Flow A", "Reads entity A", "/api/a", [], [], "high"⟩

/-- An endpoint profile whose model-chosen `entry_point` embeds a progress
marker; accepted verbatim by discovery, it reaches the Guardian stage's
`Entry:` log line. -/
def exFlowSpoof : FlowProfile :=
  ⟨"Flow B", "Reads entity B", "[1/99] Analyzing: x", [], [], "high"⟩

def exControl : SecurityControl :=
  ⟨"AUTH-001", "Password Hashing", "Use bcrypt with a cost factor of 12",
   "authentication", "critical", ["A02:2021"]⟩

def exChecklistA : SecurityChecklist := ⟨"Flow A", [exControl], [], []⟩

def exChecklistB : SecurityChecklist := ⟨"Flow B", [exControl], [], []⟩

/-- A checklist whose model-returned `flow_name` differs from the input
flow's. -/
def exChecklistWrongName : SecurityChecklist :=
  ⟨"Hallucinated Name", [exControl], [], []⟩

def exC1Oracle : List GuardianOracle :=
  [.ok (.completed exChecklistA), .ok (.completed exChecklistB)]

def exSummary : SecurityReportSummary := ⟨1, 1, 0, 0, "low"⟩

/-- A report whose model-returned `flow_name` differs from the input's. -/
def exReportWrongName : SecurityReport :=
  ⟨"Wrong Name", [], [], [], exSummary⟩

def exInput1 : InspectionInput := ⟨exProfile, ⟨"Analyze Job", [exControl], [], []⟩⟩

def exInput2 : InspectionInput := ⟨exProfileDup1, ⟨"User Flow", [exControl], [], []⟩⟩

def exInspectorOracle : List InspectorOracle := [.ok (.completed exReportWrongName)]

/-! # Theorems -/

/-! ## Store lemmas -/

theorem getJob_setJob (st : JobStore) (id : String) (j job : Job)
    (h : getJob st id = some job) : getJob (setJob st id j) id = some j := by
  induction st with
  | nil => simp [getJob] at h
  | cons p rest ih =>
      cases hb : (p.1 == id) with
      | true =>
          simp only [getJob, setJob, List.map_cons, List.find?_cons, hb, if_true,
            Option.map_some']
      | false =>
          simp only [getJob, List.find?_cons, hb] at h
          simp only [getJob, setJob, List.map_cons, List.find?_cons, hb, if_false]
          simp only [Bool.false_eq_true, if_false]
          rw [hb]
          exact ih h

/-- After `setResult` on a registered job, the job holds the new result. -/
theorem setResult_getJob (st : JobStore) (id : String) (job : Job)
    (h : getJob st id = some job) (r : AnalysisResult) (t : Nat) :
    getJob ((setResult id r t st).1) id = some { job with result := some r } := by
  unfold setResult
  rw [h]
  exact getJob_setJob st id _ job h

/-- After `setError` on a registered job, the job holds the error, a `failed`
status and a fresh `completedAt`. -/
theorem setError_getJob (st : JobStore) (id : String) (job : Job)
    (h : getJob st id = some job) (e : String) (t : Nat) :
    getJob ((setError id e t st).1) id =
      some { job with error := some e, status := JobStatus.failed,
                      completedAt := some t } := by
  unfold setError
  rw [h]
  exact getJob_setJob st id _ job h

/-! ## Claim C9 -/

/-- C9: calling `cancelJob` on a job whose status is neither `pending` nor
`running` returns `false`, leaves the store (in particular the job's status
and `completedAt`) untouched and emits no event. -/
theorem cancelJob_nonactive_noop (st : JobStore) (id : String) (now : Nat) (job : Job)
    (hget : getJob st id = some job)
    (hpend : job.status ≠ JobStatus.pending) (hrun : job.status ≠ JobStatus.running) :
    cancelJob id now st = (st, [], false) := by
  unfold cancelJob
  rw [hget]
  simp [hrun, hpend]

/-- Witness for C9 at a concrete completed job. -/
theorem cancelJob_nonactive_noop_witness :
    cancelJob "j1" 50 [("j1", exJobDone)] = ([("j1", exJobDone)], [], false) :=
  cancelJob_nonactive_noop [("j1", exJobDone)] "j1" 50 exJobDone rfl
    (by decide) (by decide)

/-! ## Claim C10 -/

/-- C10: for a job id that is not in the registry, the mutation operations
`addLog`, `updateProgress`, `updateStatus`, `setResult` and `setError`
return silently without changing the store and without emitting events,
whereas `subscribeToJob` fails with a job-not-found error. -/
theorem jobStore_unknownId_behavior (st : JobStore) (id : String)
    (hid : getJob st id = none)
    (level message stage errMsg : String) (current total now : Nat)
    (r : AnalysisResult) (s : JobStatus) :
    addLog id level message now st = (st, []) ∧
    updateProgress id current total stage now st = (st, []) ∧
    updateStatus id s now st = (st, []) ∧
    setResult id r now st = (st, []) ∧
    setError id errMsg now st = (st, []) ∧
    subscribeToJob id st = Except.error ("Job " ++ id ++ " not found") := by
  unfold addLog updateProgress updateStatus setResult setError subscribeToJob
  rw [hid]
  exact ⟨rfl, rfl, rfl, rfl, rfl, rfl⟩

/-- Witness for C10 at the empty registry. -/
theorem jobStore_unknownId_behavior_witness :
    addLog "ghost" "info" "m" 3 [] = ([], []) ∧
    updateProgress "ghost" 1 2 "stage" 3 [] = ([], []) ∧
    updateStatus "ghost" JobStatus.running 3 [] = ([], []) ∧
    setResult "ghost" exResultA 3 [] = ([], []) ∧
    setError "ghost" "boom" 3 [] = ([], []) ∧
    subscribeToJob "ghost" [] = Except.error ("Job " ++ "ghost" ++ " not found") :=
  jobStore_unknownId_behavior [] "ghost" rfl "info" "m" "stage" "boom" 1 2 3
    exResultA JobStatus.running

/-! ## Claim C2 -/

/-- C2 counterexample: the store operations have no once-guard.  Calling
`setResult` and then `setError` on the same running job leaves BOTH fields
set, and a second `setResult` overwrites the first, so "exactly one of
`result` or `error` is ever set, and each is set at most once" is not a
guarantee of `setResult`/`setError`. -/
theorem setResult_setError_not_once :
    (getJob ((setError "j1" "gateway unreachable" 30
        ((setResult "j1" exResultA 20 exStoreRun).1)).1) "j1").map
        (fun j => (j.result, j.error)) =
      some (some exResultA, some "gateway unreachable") ∧
    (getJob ((setResult "j1" exResultB 40
        ((setResult "j1" exResultA 20 exStoreRun).1)).1) "j1").map
        (fun j => j.result) = some (some exResultB) := by
  exact ⟨rfl, rfl⟩

/-- C2 amended: `setResult` and `setError` are unconditional setters with no
idempotence guard.  `setError` does force the status to `failed` (stamping
`completedAt`), but calling both operations leaves both fields set, and a
later `setResult` overwrites an earlier value; mutual exclusion of `result`
and `error` is not enforced by the job store. -/
theorem setResult_setError_no_once_guard (st : JobStore) (id : String) (job : Job)
    (hget : getJob st id = some job) (r r' : AnalysisResult) (e : String)
    (t1 t2 t3 : Nat) :
    (getJob ((setError id e t2 ((setResult id r t1 st).1)).1) id).map
        (fun j => (j.result, j.error, j.status)) =
      some (some r, some e, JobStatus.failed) ∧
    (getJob ((setResult id r' t3 ((setError id e t2
        ((setResult id r t1 st).1)).1)).1) id).map (fun j => j.result) =
      some (some r') := by
  have h1 := setResult_getJob st id job hget r t1
  have h2 := setError_getJob _ id _ h1 e t2
  have h3 := setResult_getJob _ id _ h2 r' t3
  refine ⟨?_, ?_⟩
  · rw [h2]; rfl
  · rw [h3]; rfl

/-- Witness for the amended C2 at a concrete running job. -/
theorem setResult_setError_no_once_guard_witness :
    (getJob ((setError "j1" "boom" 30 ((setResult "j1" exResultA 20 exStoreRun).1)).1) "j1").map
        (fun j => (j.result, j.error, j.status)) =
      some (some exResultA, some "boom", JobStatus.failed) ∧
    (getJob ((setResult "j1" exResultB 40 ((setError "j1" "boom" 30
        ((setResult "j1" exResultA 20 exStoreRun).1)).1)).1) "j1").map
        (fun j => j.result) = some (some exResultB) :=
  setResult_setError_no_once_guard exStoreRun "j1" exJobRunning rfl
    exResultA exResultB "boom" 20 30 40

/-! ## Sentinel evaluation lemmas -/

/-- A single trace that immediately completes accepts the profile verbatim. -/
theorem findAndTrace_completed (files : List FileEntry) (maxDepth : Nat)
    (tree : String) (P : List String) (o : List SentinelOracle)
    (p : EndpointProfile) (hdepth : 0 < maxDepth) :
    findAndTraceEndpoint files maxDepth tree P (.ok (.completed p) :: o) =
      ⟨.foundEndpoint p,
       [.user (.initial tree P), .assistant (.ok (.completed p))], [], o,
       [.completedLog p.entry_point]⟩ := by
  unfold findAndTraceEndpoint traceLoop
  simp [hdepth]

/-- A single trace answered `not_found` ends with the `notFoundEnd` outcome. -/
theorem findAndTrace_notFound (files : List FileEntry) (maxDepth : Nat)
    (tree : String) (P : List String) (o : List SentinelOracle)
    (hdepth : 0 < maxDepth) :
    findAndTraceEndpoint files maxDepth tree P (.ok .notFound :: o) =
      ⟨.notFoundEnd,
       [.user (.initial tree P), .assistant (.ok .notFound)], [], o,
       [.notFoundLog]⟩ := by
  unfold findAndTraceEndpoint traceLoop
  simp [hdepth]

/-! ## Claim C4 -/

/-- C4 counterexample: with a depth budget of 2, a trace that exhausts its
depth makes `findAndTraceEndpoint` return `null`, and the outer discovery
loop treats that exactly like `not_found`: it logs completion and STOPS,
leaving the would-be next trace (the unconsumed `completed` reply) on the
oracle, instead of attempting a next trace. -/
theorem sentinel_trace_failure_stops_discovery :
    (sentinelAnalyze exFiles 2 exTree exOracleC4).endpoints = [] ∧
    (sentinelAnalyze exFiles 2 exTree exOracleC4).rest =
      [.ok (.completed exProfile)] ∧
    (sentinelAnalyze exFiles 2 exTree exOracleC4).logs =
      [.startLog,
       .tracingLog "POST /api/analyze" "src/app/api/analyze/route.ts",
       .tracingLog "POST /api/analyze" "src/lib/job-store.ts",
       .maxDepthLog 2, .allAnalyzedLog] :=
  ⟨rfl, rfl, rfl⟩

/-- C4 amended: when a single endpoint-trace attempt fails (requested pick
file missing) or exhausts its depth budget, the Discovery Agent logs it, but
the outer loop does NOT attempt a next trace: any `null` trace result
terminates the whole discovery stage exactly as `not_found` does, logging
"all endpoints analyzed". -/
theorem sentinel_null_trace_ends_stage (files : List FileEntry) (maxDepth : Nat)
    (tree : String) (oracle : List SentinelOracle) (fuel : Nat)
    (acc : List EndpointProfile) (processed : List String)
    (logs : List SentinelLog)
    (hout : (findAndTraceEndpoint files maxDepth tree processed oracle).outcome =
              .depthExhausted ∨
            (findAndTraceEndpoint files maxDepth tree processed oracle).outcome =
              .pickFileMissing) :
    analyzeLoop files maxDepth tree (fuel + 1) oracle acc processed logs =
      ⟨acc, processed,
       (findAndTraceEndpoint files maxDepth tree processed oracle).rest,
       logs ++ (findAndTraceEndpoint files maxDepth tree processed oracle).logs ++
         [.allAnalyzedLog]⟩ := by
  unfold analyzeLoop
  rcases hout with h | h <;> simp [h]

/-- Witness for the amended C4 at the depth-exhaustion oracle. -/
theorem sentinel_null_trace_ends_stage_witness :
    analyzeLoop exFiles 2 exTree 3 exOracleC4 [] [] [.startLog] =
      ⟨[], [], (findAndTraceEndpoint exFiles 2 exTree [] exOracleC4).rest,
       [.startLog] ++ (findAndTraceEndpoint exFiles 2 exTree [] exOracleC4).logs ++
         [.allAnalyzedLog]⟩ :=
  sentinel_null_trace_ends_stage exFiles 2 exTree exOracleC4 2 [] [] [.startLog]
    (Or.inl rfl)

/-! ## Claim C6 -/

/-- C6: a `pick_endpoint` reply naming a path that is not in the file set
(after normalization) makes the driver append the `fileNotFound` follow-up
user turn, whose suggestion list holds at most 5 files, each of which is a
`- <path>` line for a file of the set whose lowercase path contains a token
of the requested path; and the discovered-endpoint count is not
incremented. -/
theorem sentinel_pick_missing_file (files : List FileEntry) (maxDepth : Nat)
    (tree path : String) (processed : List String) (rest : List SentinelOracle)
    (hdepth : 0 < maxDepth) (hmiss : findFileContent files path = none) :
    (findAndTraceEndpoint files maxDepth tree processed
        (.ok (.pickEndpoint path) :: rest)).outcome = .pickFileMissing ∧
    (findAndTraceEndpoint files maxDepth tree processed
        (.ok (.pickEndpoint path) :: rest)).hist =
      [.user (.initial tree processed), .assistant (.ok (.pickEndpoint path)),
       .user (.fileNotFound path (findSimilarFiles files path))] ∧
    (findAndTraceEndpoint files maxDepth tree processed
        (.ok (.pickEndpoint path) :: rest)).rest = rest ∧
    (findSimilarFiles files path).length ≤ 5 ∧
    (∀ s ∈ findSimilarFiles files path,
      ∃ f ∈ files, s = "- " ++ f.path ∧ similarMatch path f = true) ∧
    (∀ fuel acc processed' logs,
      (analyzeLoop files maxDepth tree (fuel + 1)
          (.ok (.pickEndpoint path) :: rest) acc processed' logs).endpoints =
        acc) := by
  have htr : ∀ P, findAndTraceEndpoint files maxDepth tree P
      (.ok (.pickEndpoint path) :: rest) =
      ⟨.pickFileMissing,
       [.user (.initial tree P), .assistant (.ok (.pickEndpoint path)),
        .user (.fileNotFound path (findSimilarFiles files path))],
       [], rest, [.pickingLog path]⟩ := by
    intro P
    unfold findAndTraceEndpoint traceLoop readFileAndRespond lookupRead
    simp [hdepth, hmiss]
  refine ⟨by rw [htr], by rw [htr], by rw [htr], ?_, ?_, ?_⟩
  · unfold findSimilarFiles
    rw [List.length_map, List.length_take]
    exact Nat.min_le_left _ _
  · intro s hs
    unfold findSimilarFiles at hs
    rcases List.mem_map.mp hs with ⟨f, hf, hsf⟩
    have hf' : f ∈ files.filter (similarMatch path) := List.take_subset _ _ hf
    rcases List.mem_filter.mp hf' with ⟨hmem, hpred⟩
    exact ⟨f, hmem, hsf.symm, hpred⟩
  · intro fuel acc processed' logs
    unfold analyzeLoop
    simp [htr processed']

/-- Witness for C6 at a concrete missing path. -/
theorem sentinel_pick_missing_file_witness :
    (findAndTraceEndpoint exFiles 10 exTree []
        ([.ok (.pickEndpoint "src/nope.ts")])).outcome = .pickFileMissing ∧
    (findAndTraceEndpoint exFiles 10 exTree []
        ([.ok (.pickEndpoint "src/nope.ts")])).hist =
      [.user (.initial exTree []), .assistant (.ok (.pickEndpoint "src/nope.ts")),
       .user (.fileNotFound "src/nope.ts" (findSimilarFiles exFiles "src/nope.ts"))] ∧
    (findAndTraceEndpoint exFiles 10 exTree []
        ([.ok (.pickEndpoint "src/nope.ts")])).rest = [] ∧
    (findSimilarFiles exFiles "src/nope.ts").length ≤ 5 ∧
    (∀ s ∈ findSimilarFiles exFiles "src/nope.ts",
      ∃ f ∈ exFiles, s = "- " ++ f.path ∧ similarMatch "src/nope.ts" f = true) ∧
    (∀ fuel acc processed' logs,
      (analyzeLoop exFiles 10 exTree (fuel + 1)
          ([.ok (.pickEndpoint "src/nope.ts")]) acc processed' logs).endpoints =
        acc) :=
  sentinel_pick_missing_file exFiles 10 exTree "src/nope.ts" [] []
    (by decide) (by decide)

/-! ## Claim C8 -/

/-- C8 counterexample: two `completed` replies whose profiles share the same
`flow_name` are both accepted; the accumulated endpoint set then has a
duplicated join key, so flow_name uniqueness is not enforced. -/
theorem sentinel_duplicate_flowName_accepted :
    (sentinelAnalyze exFiles 10 exTree
        [.ok (.completed exProfileDup1), .ok (.completed exProfileDup2),
         .ok .notFound]).endpoints.map (fun p => p.flow_name) =
      ["User Flow", "User Flow"] ∧
    exProfileDup1 ≠ exProfileDup2 :=
  ⟨rfl, by decide⟩

/-- C8 amended: the discovery loop accepts completed EndpointProfiles
verbatim and in order, recording each profile's `entry_point` (not its
`flow_name`) in the processed list; no uniqueness check is applied to
`flow_name`, so two accepted profiles may share one. -/
theorem sentinel_accepts_profiles_verbatim (files : List FileEntry)
    (maxDepth : Nat) (tree : String) (p1 p2 : EndpointProfile)
    (hdepth : 0 < maxDepth) :
    (sentinelAnalyze files maxDepth tree
        [.ok (.completed p1), .ok (.completed p2), .ok .notFound]).endpoints =
      [p1, p2] ∧
    (sentinelAnalyze files maxDepth tree
        [.ok (.completed p1), .ok (.completed p2), .ok .notFound]).processed =
      [p1.entry_point, p2.entry_point] := by
  unfold sentinelAnalyze
  simp [analyzeLoop, findAndTrace_completed files maxDepth tree _ _ _ hdepth,
    findAndTrace_notFound files maxDepth tree _ _ hdepth]

/-- Witness for the amended C8 at two concrete profiles sharing a
`flow_name`. -/
theorem sentinel_accepts_profiles_verbatim_witness :
    (sentinelAnalyze exFiles 10 exTree
        [.ok (.completed exProfileDup1), .ok (.completed exProfileDup2),
         .ok .notFound]).endpoints = [exProfileDup1, exProfileDup2] ∧
    (sentinelAnalyze exFiles 10 exTree
        [.ok (.completed exProfileDup1), .ok (.completed exProfileDup2),
         .ok .notFound]).processed =
      [exProfileDup1.entry_point, exProfileDup2.entry_point] :=
  sentinel_accepts_profiles_verbatim exFiles 10 exTree exProfileDup1
    exProfileDup2 (by decide)

/-! ## Guardian/Inspector flow-name lemmas -/

theorem guardianGo_flowName (flow : FlowProfile) (maxR fuel : Nat) :
    ∀ (retries : Nat) (hist : List GuardianMsg) (logs : List String)
      (o : List GuardianOracle) (c : SecurityChecklist),
      (guardianGo flow maxR fuel retries hist logs o).checklist = some c →
      c.flow_name = flow.flow_name := by
  induction fuel with
  | zero =>
      intro retries hist logs o c h
      simp [guardianGo] at h
  | succ n ih =>
      intro retries hist logs o c h
      cases o with
      | nil => simp [guardianGo] at h
      | cons resp rest =>
          cases resp with
          | parseFail m =>
              simp only [guardianGo] at h
              exact ih _ _ _ _ c h
          | ok r =>
              cases r with
              | completed c' =>
                  simp only [guardianGo, Option.some.injEq] at h
                  subst h
                  rfl
              | errorStatus m =>
                  simp only [guardianGo] at h
                  exact ih _ _ _ _ c h

theorem inspectorGo_flowName (flowName : String) (abortAt maxR fuel : Nat) :
    ∀ (retries : Nat) (hist : List InspectorMsg) (calls : Nat)
      (logs : List InspectorLog) (o : List InspectorOracle)
      (r : SecurityReport),
      (inspectorGo flowName abortAt maxR fuel retries hist calls logs o).res =
        .done (some r) → r.flow_name = flowName := by
  induction fuel with
  | zero =>
      intro retries hist calls logs o r h
      simp [inspectorGo] at h
  | succ n ih =>
      intro retries hist calls logs o r h
      by_cases h1 : signalAborted abortAt calls
      · simp [inspectorGo, h1] at h
      · by_cases h2 : signalAborted abortAt (calls + 1)
        · simp only [inspectorGo, h1, h2] at h
          simp at h
          exact ih _ _ _ _ _ r h
        · cases o with
          | nil => simp [inspectorGo, h1, h2] at h
          | cons resp rest =>
              cases resp with
              | parseFail m =>
                  simp only [inspectorGo, h1, h2] at h
                  simp at h
                  exact ih _ _ _ _ _ r h
              | ok rr =>
                  cases rr with
                  | completed r' =>
                      simp only [inspectorGo, h1, h2] at h
                      simp [InspectorFlowRes.done.injEq, Option.some.injEq] at h
                      subst h
                      rfl
                  | errorStatus m =>
                      simp only [inspectorGo, h1, h2] at h
                      simp at h
                      exact ih _ _ _ _ _ r h

/-! ## Claim C7 -/

/-- C7: a successful checklist of the Guardian Agent and a successful report
of the Inspector Agent carry the input's `flow_name`, whatever string the
model returned. -/
theorem agent_flowName_overwritten :
    (∀ (flow : FlowProfile) (maxR : Nat) (o : List GuardianOracle)
        (c : SecurityChecklist),
        (guardianAnalyzeFlow flow maxR o).checklist = some c →
        c.flow_name = flow.flow_name) ∧
    (∀ (input : InspectionInput) (abortAt maxR calls : Nat)
        (logs : List InspectorLog) (o : List InspectorOracle)
        (r : SecurityReport),
        (inspectFlow input abortAt maxR calls logs o).res = .done (some r) →
        r.flow_name = input.endpoint.flow_name) := by
  constructor
  · intro flow maxR o c h
    exact guardianGo_flowName flow maxR maxR 0 _ _ o c h
  · intro input abortAt maxR calls logs o r h
    exact inspectorGo_flowName _ abortAt maxR maxR 0 _ calls logs o r h

/-- Witness for C7: a model-returned checklist/report with a hallucinated
`flow_name` comes back carrying the input's. -/
theorem agent_flowName_overwritten_witness :
    ((guardianAnalyzeFlow exFlowA 3 [.ok (.completed exChecklistWrongName)]).checklist =
        some { exChecklistWrongName with flow_name := "Flow A" } ∧
      ({ exChecklistWrongName with flow_name := "Flow A" } : SecurityChecklist).flow_name =
        exFlowA.flow_name) ∧
    ((inspectFlow exInput1 5 3 0 [] exInspectorOracle).res =
        .done (some { exReportWrongName with flow_name := "Analyze Job" }) ∧
      ({ exReportWrongName with flow_name := "Analyze Job" } : SecurityReport).flow_name =
        exInput1.endpoint.flow_name) :=
  ⟨⟨rfl, agent_flowName_overwritten.1 exFlowA 3
      [.ok (.completed exChecklistWrongName)] _ rfl⟩,
   ⟨rfl, agent_flowName_overwritten.2 exInput1 5 3 0 [] exInspectorOracle _ rfl⟩⟩

/-! ## Inspector call-count lemmas -/

/-- No model call is issued once the signal is aborted: the call counter
never passes the abort point. -/
theorem inspectorGo_calls_le (flowName : String) (abortAt maxR fuel : Nat) :
    ∀ (retries : Nat) (hist : List InspectorMsg) (calls : Nat)
      (logs : List InspectorLog) (o : List InspectorOracle),
      calls ≤ abortAt →
      (inspectorGo flowName abortAt maxR fuel retries hist calls logs o).calls ≤
        abortAt := by
  induction fuel with
  | zero =>
      intro retries hist calls logs o hc
      simpa [inspectorGo] using hc
  | succ n ih =>
      intro retries hist calls logs o hc
      by_cases h1 : signalAborted abortAt calls
      · simpa [inspectorGo, h1] using hc
      · have hlt : calls < abortAt := by
          have := h1
          simp only [signalAborted, decide_eq_true_eq] at this
          exact Nat.lt_of_not_le this
        have hc' : calls + 1 ≤ abortAt := hlt
        by_cases h2 : signalAborted abortAt (calls + 1)
        · simp only [inspectorGo, h1, h2]
          simp only [Bool.false_eq_true, if_false, if_true]
          exact ih _ _ _ _ _ hc'
        · cases o with
          | nil => simpa [inspectorGo, h1, h2] using hc'
          | cons resp rest =>
              cases resp with
              | parseFail m =>
                  simp only [inspectorGo, h1, h2]
                  simp only [Bool.false_eq_true, if_false]
                  exact ih _ _ _ _ _ hc'
              | ok rr =>
                  cases rr with
                  | completed r' =>
                      simpa [inspectorGo, h1, h2] using hc'
                  | errorStatus m =>
                      simp only [inspectorGo, h1, h2]
                      simp only [Bool.false_eq_true, if_false]
                      exact ih _ _ _ _ _ hc'

theorem inspectorFlowsGo_calls_le (abortAt maxR total : Nat)
    (inputs : List InspectionInput) :
    ∀ (i : Nat) (acc : List SecurityReport) (recs : List InspectorRecord)
      (calls : Nat) (logs : List InspectorLog) (o : List InspectorOracle),
      calls ≤ abortAt →
      (inspectorFlowsGo abortAt maxR total inputs i acc recs calls logs o).calls ≤
        abortAt := by
  induction inputs with
  | nil =>
      intro i acc recs calls logs o hc
      simpa [inspectorFlowsGo] using hc
  | cons inp rest ih =>
      intro i acc recs calls logs o hc
      by_cases h1 : signalAborted abortAt calls
      · simpa [inspectorFlowsGo, h1] using hc
      · have hfo := inspectorGo_calls_le inp.endpoint.flow_name abortAt maxR maxR
          0 [.user (.inspectionPrompt inp)] calls
          (logs ++ [.inspectingLog (i + 1) total inp.endpoint.flow_name,
            .controlsLog (inp.checklist.required_controls.length +
              inp.checklist.recommended_controls.length)]) o hc
        simp only [inspectorFlowsGo, h1]
        simp only [Bool.false_eq_true, if_false]
        split
        · exact ih _ _ _ _ _ _ hfo
        · exact ih _ _ _ _ _ _ hfo
        · exact ih _ _ _ _ _ _ hfo

theorem runInspectorStage_calls_le (inputs : List InspectionInput)
    (abortAt maxR : Nat) (oracle : List InspectorOracle) :
    (runInspectorStage inputs abortAt maxR oracle).calls ≤ abortAt := by
  unfold runInspectorStage inspectFlows
  by_cases h0 : signalAborted abortAt 0
  · simp [h0]
  · have hout := inspectorFlowsGo_calls_le abortAt maxR inputs.length inputs
      0 [] [] 0 [.startLog, .countLog inputs.length] oracle (Nat.zero_le _)
    simp only [h0, Bool.false_eq_true, if_false]
    split <;> split <;> simpa using hout

/-! ## Claim C3 -/

/-- C3 counterexample: cancellation signalled during the first inspection's
model call (abort point 1, two units of work) is caught by the generic
per-unit machinery: the aborted call consumes a retry and is logged like a
parse error, and the cancellation escaping the unit is logged as that unit's
generic `Failed to inspect flow` failure; the stage-level escape is further
logged as a generic Inspector Agent warning by the runner.  So the
cancellation IS mistaken for, retried as, and logged as a generic per-unit
failure, refuting that part of the claim (the job still ends cancelled with
no result). -/
theorem inspector_cancellation_logged_as_failure :
    (runInspectorStage [exInput1, exInput2] 1 3 exInspectorOracle).logs =
      [.startLog, .countLog 2, .inspectingLog 1 2 "Analyze Job",
       .controlsLog 1, .parseErrorLog 1 3 .abortErr,
       .unitFailedLog .cancelledErr] ∧
    (runInspectorStage [exInput1, exInput2] 1 3 exInspectorOracle).agentErrorLogged =
      true ∧
    (runInspectorStage [exInput1, exInput2] 1 3 exInspectorOracle).resultSet =
      false :=
  ⟨rfl, rfl, rfl⟩

/-- C3 amended: once cancellation is signalled on a running job
mid-inspection, no further model calls are issued (the number of issued
calls never exceeds the abort point) and, whenever the abort fired during
the stage, the runner exits through the cancellation path: `setResult` and
`updateStatus` are never reached, so the job keeps the `cancelled` status
stamped by `cancelJob` and its result stays unset.  (The signal itself is
NOT a distinct control-flow type on the agent side: it surfaces as a plain
error that the generic per-unit handlers catch, retry and log — see the
counterexample.) -/
theorem inspector_cancellation_amended :
    (∀ (inputs : List InspectionInput) (abortAt maxR : Nat)
        (oracle : List InspectorOracle),
        (runInspectorStage inputs abortAt maxR oracle).calls ≤ abortAt) ∧
    (∀ (inputs : List InspectionInput) (abortAt maxR : Nat)
        (oracle : List InspectorOracle),
        signalAborted abortAt
            (runInspectorStage inputs abortAt maxR oracle).calls = true →
        (runInspectorStage inputs abortAt maxR oracle).exit = .cancelledExit ∧
        (runInspectorStage inputs abortAt maxR oracle).resultSet = false ∧
        (runInspectorStage inputs abortAt maxR oracle).finalStatus = none) := by
  constructor
  · intro inputs abortAt maxR oracle
    exact runInspectorStage_calls_le inputs abortAt maxR oracle
  · intro inputs abortAt maxR oracle h
    unfold runInspectorStage at h ⊢
    by_cases h0 : signalAborted abortAt 0
    · simp [h0]
    · simp only [h0, Bool.false_eq_true, if_false] at h ⊢
      by_cases hesc : (inspectFlows inputs abortAt maxR oracle).escaped
      · simp only [hesc, if_true] at h ⊢
        by_cases hab : signalAborted abortAt
            (inspectFlows inputs abortAt maxR oracle).calls
        · simp [hab]
        · simp only [hab, Bool.false_eq_true, if_false] at h
      · simp only [hesc, Bool.false_eq_true, if_false] at h ⊢
        by_cases hab : signalAborted abortAt
            (inspectFlows inputs abortAt maxR oracle).calls
        · simp [hab]
        · simp only [hab, Bool.false_eq_true, if_false] at h

/-- Witness for the amended C3 at the concrete aborted run. -/
theorem inspector_cancellation_amended_witness :
    (runInspectorStage [exInput1, exInput2] 1 3 exInspectorOracle).calls ≤ 1 ∧
    (signalAborted 1
        (runInspectorStage [exInput1, exInput2] 1 3 exInspectorOracle).calls =
      true ∧
     (runInspectorStage [exInput1, exInput2] 1 3 exInspectorOracle).exit =
      .cancelledExit ∧
     (runInspectorStage [exInput1, exInput2] 1 3 exInspectorOracle).resultSet =
      false ∧
     (runInspectorStage [exInput1, exInput2] 1 3 exInspectorOracle).finalStatus =
      none) :=
  ⟨inspector_cancellation_amended.1 [exInput1, exInput2] 1 3 exInspectorOracle,
   rfl,
   inspector_cancellation_amended.2 [exInput1, exInput2] 1 3 exInspectorOracle rfl⟩

/-! ## Claim C5 -/

/-- C5 counterexample: in the Guardian (checklist) agent a model reply that
fails to parse is NOT removed from the accumulated history — the archived
conversation of a run with one parse failure and then a valid `completed`
reply still contains the unparseable assistant turn, followed by the
corrective user turn; the failure consumed one retry. -/
theorem guardian_keeps_unparseable_exchange :
    (guardianAnalyzeFlow exFlowA 3
        [.parseFail "No JSON found in agent response",
         .ok (.completed exChecklistWrongName)]).record.hist =
      [.user (.analysisPrompt exFlowA),
       .assistant (.parseFail "No JSON found in agent response"),
       .user (.retryAfterParseFail "No JSON found in agent response"),
       .assistant (.ok (.completed exChecklistWrongName))] ∧
    (guardianAnalyzeFlow exFlowA 3
        [.parseFail "No JSON found in agent response",
         .ok (.completed exChecklistWrongName)]).record.retries = 1 ∧
    (guardianAnalyzeFlow exFlowA 3
        [.parseFail "No JSON found in agent response",
         .ok (.completed exChecklistWrongName)]).record.success = true :=
  ⟨rfl, rfl, rfl⟩

/-- C5 amended: the parse-failure policy differs per agent.  (1) The
discovery agent pops the unparseable exchange and compensates the depth
counter: the re-prompt sees the exact same state, only the failure log is
added, and there is no retry cap.  (2) The checklist agent consumes a retry,
RETAINS the unparseable exchange and appends a corrective user turn.  (3)
When the checklist agent's retry budget is exhausted the unit returns no
result, recorded as a failure with its transcript.  (4) A flow whose
checklist came back `null` contributes nothing and the stage continues with
the remaining flows.  (5) The inspection agent consumes a retry and pops the
assistant turn without appending a corrective turn. -/
theorem parse_failure_policy :
    (∀ (files : List FileEntry) (maxDepth : Nat) (msg : String)
        (rest : List SentinelOracle) (st : TraceSt),
        st.depth < maxDepth →
        traceLoop files maxDepth (.parseFail msg :: rest) st =
          traceLoop files maxDepth rest
            { st with logs := st.logs ++ [.parseFailLog msg] }) ∧
    (∀ (flow : FlowProfile) (maxR fuel retries : Nat)
        (hist : List GuardianMsg) (logs : List String) (m : String)
        (o : List GuardianOracle),
        guardianGo flow maxR (fuel + 1) retries hist logs (.parseFail m :: o) =
          guardianGo flow maxR fuel (retries + 1)
            (hist ++ [.assistant (.parseFail m), .user (.retryAfterParseFail m)])
            (logs ++ [guardianRetryLog (retries + 1) maxR m]) o) ∧
    (∀ (flow : FlowProfile) (maxR retries : Nat) (hist : List GuardianMsg)
        (logs : List String) (o : List GuardianOracle),
        guardianGo flow maxR 0 retries hist logs o =
          ⟨none, ⟨flow.flow_name, hist, retries, false⟩, o, logs, false⟩) ∧
    (∀ (maxR total : Nat) (flow : FlowProfile) (flows : List FlowProfile)
        (i : Nat) (acc : List SecurityChecklist) (recs : List GuardianRecord)
        (logs : List String) (o : List GuardianOracle),
        (guardianAnalyzeFlow flow maxR o).checklist = none →
        guardianFlowsGo maxR total (flow :: flows) i acc recs logs o =
          guardianFlowsGo maxR total flows (i + 1) acc
            (recs ++ [(guardianAnalyzeFlow flow maxR o).record])
            ((logs ++ [guardianAnalyzingLog (i + 1) total flow.flow_name,
               guardianEntryLog flow.entry_point flow.sensitivity_level]) ++
              (guardianAnalyzeFlow flow maxR o).logs)
            (guardianAnalyzeFlow flow maxR o).rest) ∧
    (∀ (flowName : String) (abortAt maxR fuel retries : Nat)
        (hist : List InspectorMsg) (calls : Nat) (logs : List InspectorLog)
        (m : String) (o : List InspectorOracle),
        signalAborted abortAt calls = false →
        signalAborted abortAt (calls + 1) = false →
        inspectorGo flowName abortAt maxR (fuel + 1) retries hist calls logs
            (.parseFail m :: o) =
          inspectorGo flowName abortAt maxR fuel (retries + 1)
            (popIfAssistant (hist ++ [.assistant (.parseFail m)])) (calls + 1)
            (logs ++ [.parseErrorLog (retries + 1) maxR (.parseErr m)]) o) := by
  refine ⟨?_, ?_, ?_, ?_, ?_⟩
  · intro files maxDepth msg rest st hd
    simp only [traceLoop, hd, if_true, List.dropLast_concat, Nat.add_sub_cancel]
  · intro flow maxR fuel retries hist logs m o
    simp only [guardianGo, List.append_assoc]
    rfl
  · intro flow maxR retries hist logs o
    rfl
  · intro maxR total flow flows i acc recs logs o h
    simp only [guardianFlowsGo, h]
  · intro flowName abortAt maxR fuel retries hist calls logs m o h1 h2
    simp only [inspectorGo, h1, h2]
    simp only [Bool.false_eq_true, if_false]

/-- Witness for the amended C5: each part applied at a concrete input (the
hypothesis-bearing parts 1, 4 and 5 discharged concretely). -/
theorem parse_failure_policy_witness :
    (traceLoop exFiles 10 [.parseFail "bad"]
        ⟨0, [.user (.initial exTree [])], [], [], "unknown", []⟩ =
      traceLoop exFiles 10 []
        ⟨0, [.user (.initial exTree [])], [], [], "unknown",
         [.parseFailLog "bad"]⟩) ∧
    (guardianFlowsGo 3 1 [exFlowA] 0 [] [] []
        [.parseFail "bad", .parseFail "bad", .parseFail "bad"] =
      guardianFlowsGo 3 1 [] 1 []
        ([] ++ [(guardianAnalyzeFlow exFlowA 3
            [.parseFail "bad", .parseFail "bad", .parseFail "bad"]).record])
        (([] ++ [guardianAnalyzingLog 1 1 "Flow A",
           guardianEntryLog "/api/a" "high"]) ++
          (guardianAnalyzeFlow exFlowA 3
            [.parseFail "bad", .parseFail "bad", .parseFail "bad"]).logs)
        (guardianAnalyzeFlow exFlowA 3
          [.parseFail "bad", .parseFail "bad", .parseFail "bad"]).rest) ∧
    (inspectorGo "Analyze Job" 9 3 3 0 [.user (.inspectionPrompt exInput1)] 0 []
        [.parseFail "bad"] =
      inspectorGo "Analyze Job" 9 3 2 1
        (popIfAssistant
          ([.user (.inspectionPrompt exInput1)] ++
            [.assistant (.parseFail "bad")])) 1
        ([] ++ [.parseErrorLog 1 3 (.parseErr "bad")]) []) := by
  refine ⟨?_, ?_, ?_⟩
  · exact parse_failure_policy.1 exFiles 10 "bad" [] _ (by decide)
  · have h := parse_failure_policy.2.2.2.1 3 1 exFlowA [] 0 [] [] []
      [.parseFail "bad", .parseFail "bad", .parseFail "bad"] rfl
    simpa [exFlowA] using h
  · exact parse_failure_policy.2.2.2.2 "Analyze Job" 9 3 2 0
      [.user (.inspectionPrompt exInput1)] 0 [] "bad" [] rfl rfl

/-! ## Claim C1 -/

/-- C1 (code bug): the guardian-stage progress heuristic can regress.  Run
the Guardian Agent over two flows whose profiles the discovery stage accepted
verbatim, the second having the model-chosen entry point
`[1/99] Analyzing: x`; the agent's own log lines, fed to the runner's
`onLog` handler, yield the progress stream `[35, 50, 35]`: the `Entry:` line
of the second flow contains `Analyzing:` and a bracket marker, so the
handler resets `completedFlows` to 0 and emits 35 after having emitted 50.
The store's `updateProgress` applies no clamp, so the regressed value is
stored and streamed as-is.  (The guardian's own success log `‚úÖ Generated`
is mojibake in the source, so the runner's `✅ Generated` branch never fires
on it; the regression needs only the `Analyzing:` branch.) -/
theorem guardian_progress_regression :
    guardianOnLogTrace 2
        (guardianAnalyzeFlows [exFlowA, exFlowSpoof] 3 exC1Oracle).logs =
      [35, 50, 35] ∧
    ¬ List.Chain' (· ≤ ·)
        (guardianOnLogTrace 2
          (guardianAnalyzeFlows [exFlowA, exFlowSpoof] 3 exC1Oracle).logs) ∧
    ((getJob ((updateProgress "j1" 35 100 "Guardian Agent: Analyzing 1/2" 60
        ((updateProgress "j1" 50 100 "Guardian Agent: 1/2 checklists" 55
          exStoreRun).1)).1) "j1").map (fun j => j.progress.current)) =
      some 35 := by
  have h : guardianOnLogTrace 2
      (guardianAnalyzeFlows [exFlowA, exFlowSpoof] 3 exC1Oracle).logs =
      [35, 50, 35] := by decide
  refine ⟨h, ?_, rfl⟩
  rw [h]
  intro hmono
  have := List.chain'_iff_get.mp hmono 1 (by simp)
  simp at this
